import Mathlib

/-!
# Neusik audio-separation backend: a shallow embedding

This file embeds the job-processing pipeline of the Neusik backend
(Express + BullMQ + subprocess orchestration) as executable Lean
definitions and proves properties of them.

External collaborators (the OS `spawn`, the filesystem, `JSON.parse`,
the BullMQ broker, FFmpeg, the Python separation tool) are modelled as
explicit oracle parameters: a subprocess invocation is a value of
`SpawnOutcome` describing how the process behaved, a `stat` call is an
`Option Nat` (the size, or `none` when `stat` throws), and JSON parsing
is a function `String → Option ProcessingResult`.  The repository's own
control flow - branch structure, error construction, cleanup calls,
progress updates - is translated statement by statement from the
TypeScript sources (`services/processor.ts`, `services/video-extractor.ts`,
`routes/separation.ts`, `utils/storage.ts`, `utils/upload.ts`,
`utils/errors.ts`, the queue/worker module).
-/

deriving instance DecidableEq for Except

namespace Neusik

/-- Media kind as used throughout the backend (`'audio' | 'video'`). -/
inductive FileType where
  | audio
  | video
deriving Repr, DecidableEq

/-- `input` descriptor of a `ProcessingResult` (processor.ts). -/
structure InputDesc where
  path : String
  name : String
  size : Nat
  format : String
deriving Repr, DecidableEq

/-- `output` / `videoOutput` descriptor of a `ProcessingResult` (processor.ts). -/
structure OutputDesc where
  path : String
  size : Nat
  format : String
deriving Repr, DecidableEq

/-- `processing` metadata of a `ProcessingResult` (processor.ts). -/
structure ProcessingMeta where
  time_seconds : Nat
  model : String
deriving Repr, DecidableEq

/-- The `ProcessingResult` interface of `services/processor.ts`.  The
`status` field is kept as a raw string because it comes from
`JSON.parse` of the Python tool's stdout and the code compares it
against the literal `'success'`. -/
structure ProcessingResult where
  status : String
  input : Option InputDesc := none
  output : Option OutputDesc := none
  videoOutput : Option OutputDesc := none
  processing : Option ProcessingMeta := none
  message : Option String := none
  error_type : Option String := none
  warnings : List String := []
  originalFileType : Option FileType := none
deriving Repr, DecidableEq

/-- Observable behaviour of one `child_process.spawn` invocation:
either the `'error'` event fired (OS-level spawn failure, carrying the
error message), or the process ran and `'close'` fired with an exit
code (`none` models Node's `null` code for a signal-killed child) and
the accumulated stdout and stderr streams. -/
inductive SpawnOutcome where
  | failed (errMsg : String)
  | closed (code : Option Int) (stdout : String) (stderr : String)
deriving Repr, DecidableEq

/-- The `ProcessingError` values constructed by `processor.ts` and
`video-extractor.ts`: one constructor per construction site, carrying
the fixed message of that site and the details object's fields that
depend on the run. -/
inductive ProcError where
  /-- processor.ts: tool exited 0, JSON parsed, but `status !== 'success'`. -/
  | toolReported (message : String) (error_type : Option String) (python_output : String)
  /-- processor.ts: `'Failed to parse Python script output'`. -/
  | parseFailed (message : String) (python_output : String) (python_stderr : String)
  /-- processor.ts: `'Python script execution failed'` (non-zero exit). -/
  | execFailed (message : String) (exit_code : Option Int) (python_stderr : String)
      (python_stdout : String)
  /-- processor.ts: `'Failed to spawn Python process'`. -/
  | spawnFailed (message : String) (error : String)
  /-- video-extractor.ts: `'FFmpeg is not available. ...'` (`FFMPEG_NOT_FOUND`). -/
  | ffmpegNotFound (message : String)
  /-- video-extractor.ts: `'Extracted audio file is empty'` (`EXTRACTION_FAILED`). -/
  | extractionEmpty (message : String) (ffmpeg_stderr : String)
  /-- video-extractor.ts: `'Extracted audio file not found after extraction'`. -/
  | extractionMissing (message : String) (ffmpeg_stderr : String)
  /-- video-extractor.ts: `'Failed to extract audio from video'` (non-zero exit). -/
  | extractionExec (message : String) (exit_code : Option Int) (ffmpeg_stderr : String)
      (ffmpeg_stdout : String)
  /-- video-extractor.ts: `'Failed to spawn FFmpeg process'` (`FFMPEG_SPAWN_ERROR`). -/
  | ffmpegSpawn (message : String) (error : String)
deriving Repr, DecidableEq

/-- JavaScript `String.prototype.trim`: strip whitespace from both
ends (structural-recursion implementation). -/
def strTrim (s : String) : String :=
  String.mk (((s.toList.dropWhile Char.isWhitespace).reverse.dropWhile
    Char.isWhitespace).reverse)

/-- `processAudioFile` of `services/processor.ts` (lines 246-326).
`parseJson` models `JSON.parse` applied to the trimmed stdout
(returning `none` when `JSON.parse` throws); `run` is the behaviour of
the spawned Python process.  The branch structure follows the `close`
and `error` handlers of the source exactly: exit code `0` parses the
output, stamps `originalFileType`, and accepts iff `status === 'success'`;
a parse exception yields the `'Failed to parse Python script output'`
error; a non-zero (or null) exit code yields
`'Python script execution failed'` carrying stderr; the `'error'`
event yields `'Failed to spawn Python process'`. -/
def processAudioFile (parseJson : String → Option ProcessingResult)
    (run : SpawnOutcome) (originalFileType : FileType) :
    Except ProcError ProcessingResult :=
  match run with
  | .failed errMsg => .error (.spawnFailed "Failed to spawn Python process" errMsg)
  | .closed code stdout stderr =>
    if code = some 0 then
      match parseJson (strTrim stdout) with
      | some parsed =>
        let result := { parsed with originalFileType := some originalFileType }
        if result.status = "success" then
          .ok result
        else
          .error (.toolReported (result.message.getD "Processing failed")
            result.error_type stdout)
      | none => .error (.parseFailed "Failed to parse Python script output" stdout stderr)
    else
      .error (.execFailed "Python script execution failed" code stderr stdout)

/-! ## Node `path` helpers

`path.extname`, `path.dirname` and `path.parse(...).name` as used by
`video-extractor.ts` and `utils/storage.ts`.  These follow Node's POSIX
semantics on ordinary paths; degenerate inputs such as a basename of
`'..'` or paths with trailing slashes are handled by the same
special-case Node applies for `'..'` and are otherwise simplified. -/

/-- The substring of `p` after the last `'/'` (Node `path.basename` for
paths without a trailing slash). -/
def pathBasename (p : String) : String :=
  String.mk ((p.toList.reverse.takeWhile (fun c => c ≠ '/')).reverse)

/-- JavaScript `String.prototype.toLowerCase` (ASCII, which is all the
allow-lists contain). -/
def strToLower (s : String) : String :=
  String.mk (s.toList.map Char.toLower)

/-- Index of the last `'.'` of `s`, if any. -/
def lastDotIdx (s : String) : Option Nat :=
  let cs := s.toList
  let j := cs.reverse.indexOf '.'
  if j < cs.length then some (cs.length - 1 - j) else none

/-- Node `path.extname`: the suffix of the basename from its last dot,
empty when there is no dot, when the only dot is the leading character
(dotfiles), or for the basename `'..'`. -/
def pathExtname (p : String) : String :=
  let b := pathBasename p
  if b = ".." then ""
  else
    match lastDotIdx b with
    | none => ""
    | some 0 => ""
    | some i => String.mk (b.toList.drop i)

/-- Node `path.dirname`: everything before the last `'/'`, `'.'` when
there is no slash, `'/'` when the only slash is leading. -/
def pathDirname (p : String) : String :=
  let cs := p.toList
  let j := cs.reverse.indexOf '/'
  if j < cs.length then
    let i := cs.length - 1 - j
    if i = 0 then "/" else String.mk (cs.take i)
  else "."

/-- Node `path.parse(p).name`: the basename with its extension removed. -/
def pathParseName (p : String) : String :=
  let b := pathBasename p
  String.mk (b.toList.take (b.toList.length - (pathExtname p).length))

/-! ## Media-kind classification -/

/-- Video extension allow-list shared by `isVideoFileByExtension`
(video-extractor.ts), `detectMediaType` (storage.ts) and `isVideoFile`
(upload.ts). -/
def videoExtensions : List String :=
  [".mp4", ".mpeg", ".mpg", ".mov", ".avi", ".webm", ".mkv", ".flv", ".wmv"]

/-- Audio extension allow-list of `detectMediaType` (storage.ts) and
`isAudioFile` (upload.ts). -/
def audioExtensions : List String :=
  [".mp3", ".wav", ".m4a", ".flac", ".ogg", ".aac"]

/-- Video MIME allow-list of `isVideoFile` (upload.ts). -/
def videoMimeTypes : List String :=
  ["video/mp4", "video/mpeg", "video/quicktime", "video/x-msvideo",
   "video/webm", "video/x-matroska"]

/-- Audio MIME allow-list of `isAudioFile` (upload.ts). -/
def audioMimeTypes : List String :=
  ["audio/mpeg", "audio/wav", "audio/mp4", "audio/flac", "audio/ogg",
   "audio/aac", "audio/x-m4a", "audio/m4a"]

/-- `isVideoFileByExtension` of `video-extractor.ts` (lines 151-155). -/
def isVideoFileByExtension (filePath : String) : Bool :=
  videoExtensions.contains (strToLower (pathExtname filePath))

/-- `detectMediaType` of `utils/storage.ts` (lines 103-119): extension
only, video list first, then audio list, default `audio`. -/
def detectMediaType (filePath : String) : FileType :=
  let ext := strToLower (pathExtname filePath)
  if videoExtensions.contains ext then .video
  else if audioExtensions.contains ext then .audio
  else .audio

/-- `isVideoFile` of `utils/upload.ts` (lines 73-91): the declared MIME
type is consulted first; the extension allow-list is only a fallback. -/
def isVideoFile (mimetype filename : String) : Bool :=
  if videoMimeTypes.contains mimetype then true
  else videoExtensions.contains (strToLower (pathExtname filename))

/-- The classification performed by `routes/separation.ts` line 40:
`isVideoFile(req.file.mimetype, req.file.originalname) ? 'video' : 'audio'`. -/
def routeFileType (mimetype originalname : String) : FileType :=
  if isVideoFile mimetype originalname then .video else .audio

/-- `detectFileType` of `services/processor.ts` (lines 155-163):
extension check via `isVideoFileByExtension`, then `detectMediaType`. -/
def detectFileType (filePath : String) : FileType :=
  if isVideoFileByExtension filePath then .video
  else detectMediaType filePath

/-- Modelled from the spec: the §4.1 classification policy as the claim
states it - "trust file-extension mapping first (authoritative
allow-list of known audio/video extensions); fall back to declared
content type; default to `audio` if neither matches".  This definition
exists only to be compared with `routeFileType`, the classification the
code actually performs. -/
def specMediaKind (mimetype filename : String) : FileType :=
  let ext := strToLower (pathExtname filename)
  if videoExtensions.contains ext then .video
  else if audioExtensions.contains ext then .audio
  else if videoMimeTypes.contains mimetype then .video
  else if audioMimeTypes.contains mimetype then .audio
  else .audio

/-! ## Audio extraction (`video-extractor.ts`) -/

/-- `ExtractionResult` of `video-extractor.ts`. -/
structure ExtractionResult where
  audioPath : String
deriving Repr, DecidableEq

/-- Oracle for one `extractAudioFromVideo` call: whether the
`checkFFmpegAvailable` probe succeeded, how the spawned FFmpeg process
behaved, and the outcome of `fs.stat(outputPath)` after a clean exit
(`none` models `stat` throwing because the file is missing). -/
structure ExtractEnv where
  ffmpegAvailable : Bool
  run : SpawnOutcome
  statSize : Option Nat
deriving Repr, DecidableEq

/-- Result of an `extractAudioFromVideo` call together with whether the
zero-size output file was `unlink`ed (source line 102). -/
structure ExtractOutcome where
  result : Except ProcError ExtractionResult
  removedEmptyOutput : Bool
deriving Repr, DecidableEq

/-- `extractAudioFromVideo` of `services/video-extractor.ts` (lines
49-146).  Availability probe first; then, per the `close`/`error`
handlers: exit code 0 stats the output file - size 0 removes it and
rejects `'Extracted audio file is empty'`, a missing file rejects
`'Extracted audio file not found after extraction'`, otherwise the call
resolves with the output path; a non-zero exit rejects
`'Failed to extract audio from video'`; a spawn error rejects
`'Failed to spawn FFmpeg process'`. -/
def extractAudioFromVideo (env : ExtractEnv) (_videoPath outputPath : String) :
    ExtractOutcome :=
  if !env.ffmpegAvailable then
    { result := .error (.ffmpegNotFound
        "FFmpeg is not available. Video extraction cannot be performed."),
      removedEmptyOutput := false }
  else
    match env.run with
    | .failed errMsg =>
      { result := .error (.ffmpegSpawn "Failed to spawn FFmpeg process" errMsg),
        removedEmptyOutput := false }
    | .closed code stdout stderr =>
      if code = some 0 then
        match env.statSize with
        | none =>
          { result := .error (.extractionMissing
              "Extracted audio file not found after extraction" stderr),
            removedEmptyOutput := false }
        | some 0 =>
          { result := .error (.extractionEmpty "Extracted audio file is empty" stderr),
            removedEmptyOutput := true }
        | some (_ + 1) =>
          { result := .ok { audioPath := outputPath }, removedEmptyOutput := false }
      else
        { result := .error (.extractionExec "Failed to extract audio from video"
            code stderr stdout),
          removedEmptyOutput := false }

/-! ## Top-level orchestration (`separateAudio` of `processor.ts`) -/

/-- `getTempAudioPath` of `utils/storage.ts` (lines 85-90).  The
`Date.now() + '-' + random` part is nondeterministic and passed in as
`uniqueSuffix`. -/
def getTempAudioPath (uniqueSuffix : String) (videoPath : String) : String :=
  pathDirname videoPath ++ "/temp/" ++ pathParseName videoPath
    ++ "-extracted-" ++ uniqueSuffix ++ ".mp3"

/-- Oracle bundle for one `separateAudio` call: the temp-path random
suffix, the extractor call's environment, the Python subprocess
behaviour with its stdout parser, the (spec-modelled) merge outcome,
and the `getFileInfo` stat of the merged video (`none` = `stat` throws). -/
structure SepEnv where
  tempSuffix : String
  extractEnv : ExtractEnv
  parseJson : String → Option ProcessingResult
  sepRun : SpawnOutcome
  mergeOk : Bool
  videoStatSize : Option Nat

/-- Result of a `separateAudio` call together with the ordered list of
paths the call removed or attempted to remove (`fs.unlink` inside the
extractor plus every `cleanupFile` call). -/
structure SepOutcome where
  result : Except ProcError ProcessingResult
  deletions : List String
deriving Repr

/-- `mergeAudioIntoVideo` is imported by `processor.ts` but its body is
not among the sources.  Modelled from the spec: "merge(originalVideoPath,
separatedAudioPath, outputVideoPath) -> outcome" - an external re-mux
step that either succeeds or fails; `SepEnv.mergeOk` is that outcome. -/
def mergeAudioIntoVideo (env : SepEnv) (_originalVideoPath _audioPath _outputVideoPath :
    String) : Bool :=
  env.mergeOk

/-- `separateAudio` of `services/processor.ts` (lines 169-241), called
by the worker with no `isVideo` argument, so the media kind comes from
`detectFileType`.  For video input: extract audio to the temp path
(cleaning it up and rethrowing on extraction failure), run the Python
separation on the extracted file, then - when separation succeeded and
an output descriptor is present - try to merge the vocals back into the
video and attach a `videoOutput` descriptor; a merge or stat failure is
only logged and leaves the result otherwise untouched.  The `finally`
block cleans up the extracted audio file on every exit path. -/
def separateAudio (env : SepEnv) (inputPath outputDir : String) : SepOutcome :=
  match detectFileType inputPath with
  | .audio =>
    { result := processAudioFile env.parseJson env.sepRun .audio, deletions := [] }
  | .video =>
    let extractedAudioPath := getTempAudioPath env.tempSuffix inputPath
    let ex := extractAudioFromVideo env.extractEnv inputPath extractedAudioPath
    match ex.result with
    | .error e =>
      -- catch-block cleanup, rethrow, then the finally-block cleanup
      { result := .error e,
        deletions :=
          (if ex.removedEmptyOutput then [extractedAudioPath] else [])
            ++ [extractedAudioPath, extractedAudioPath] }
    | .ok _extraction =>
      match processAudioFile env.parseJson env.sepRun .video with
      | .error e => { result := .error e, deletions := [extractedAudioPath] }
      | .ok result =>
        match result.output with
        | none => { result := .ok result, deletions := [extractedAudioPath] }
        | some out =>
          let videoExt := pathExtname inputPath
          let videoOutputPath := outputDir ++ "/vocals" ++ videoExt
          if mergeAudioIntoVideo env inputPath out.path videoOutputPath then
            match env.videoStatSize with
            | some n =>
              let vOut : OutputDesc :=
                { path := videoOutputPath, size := n, format := String.mk (videoExt.toList.drop 1) }
              { result := .ok { result with videoOutput := some vOut },
                deletions := [extractedAudioPath] }
            | none =>
              -- getFileInfo threw inside the try block: logged, not fatal
              { result := .ok result, deletions := [extractedAudioPath] }
          else
            { result := .ok result, deletions := [extractedAudioPath] }

/-! ## Queue and worker (BullMQ module) -/

/-- Default of `JOB_RETRY_ATTEMPTS` (queue module line 13): the
`attempts` option of every job on `separationQueue`. -/
def JOB_ATTEMPTS : Nat := 3

/-- Fate of one job attempt as decided by the queue. -/
inductive JobFate where
  | completed
  | retried
  | permanentlyFailed
deriving Repr, DecidableEq

/-- One worker attempt composed with the broker's retry contract.  The
worker's processor (queue module lines 43-64) catches every error only
to set the failure progress sentinel and then re-throws it unchanged -
no error kind is marked unrecoverable - so the broker applies the same
rule to every error: re-queue with backoff while `attemptsMade <
attempts`, else move the job to permanently failed. -/
def jobAttemptFate (attempts attemptsMade : Nat)
    (outcome : Except ProcError ProcessingResult) : JobFate :=
  match outcome with
  | .ok _ => .completed
  | .error _ => if attemptsMade < attempts then .retried else .permanentlyFailed

/-- Modelled from the spec: §7's retry policy as the claim states it -
"Retries apply only to processing-failure and timeout (transient
categories); validation, tool-unavailable, and malformed-output are not
retried".  Of the error values that can reach the queue, the
processing-failure category is the separation tool failing
(`execFailed`, `toolReported`); `parseFailed` is malformed-output and
`ffmpegNotFound` is tool-unavailable.  This definition exists only to
be compared with `jobAttemptFate`, the rule the code actually applies. -/
def specRetryable : ProcError → Bool
  | .execFailed _ _ _ _ => true
  | .toolReported _ _ _ => true
  | _ => false

/-! ## Error classes and HTTP boundary (`utils/errors.ts`, `routes/separation.ts`) -/

/-- An `AppError` instance (`utils/errors.ts`): message, machine code,
HTTP status code. -/
structure AppError where
  message : String
  code : String
  statusCode : Nat
deriving Repr, DecidableEq

/-- `new ValidationError(message)` (errors.ts lines 95-99). -/
def ValidationError (message : String) : AppError :=
  { message := message, code := "VALIDATION_ERROR", statusCode := 400 }

/-- `new NotFoundError(message)` (errors.ts lines 113-117). -/
def NotFoundError (message : String) : AppError :=
  { message := message, code := "NOT_FOUND", statusCode := 404 }

/-- A thrown JavaScript error as seen by the catch blocks and the error
middleware: either an `AppError` subclass instance or a plain `Error`. -/
inductive JsError where
  | app (e : AppError)
  | plain (message : String)
deriving Repr, DecidableEq

/-- `getStatusCode` of `utils/errors.ts` (lines 171-176). -/
def getStatusCode : JsError → Nat
  | .app e => e.statusCode
  | .plain _ => 500

/-- `formatErrorResponse` of `utils/errors.ts` (lines 140-166), reduced
to the `error`/`code` pair the routes put in the JSON body. -/
def formatErrorResponse : JsError → String × String
  | .app e => (e.message, e.code)
  | .plain m => (m, "INTERNAL_ERROR")

/-- What a route handler sends back: a JSON response with a status code
and an `error`/`code` body, a JSON success body (abstracted), or
`res.download` of a file. -/
inductive HttpResponse where
  | errorJson (status : Nat) (error : String) (code : String)
  | statusJson (status : Nat) (state : String) (progress : Int)
      (result : Option ProcessingResult) (error : Option String)
  | download (filePath : String) (downloadName : String)
deriving Repr, DecidableEq

/-- The queue's stored view of a job, as read back by `getJob` /
`getJobStatus`: BullMQ state string, last reported progress,
`returnvalue` (present only after successful completion) and
`failedReason`. -/
structure JobRecord where
  state : String
  progress : Int
  returnvalue : Option ProcessingResult
  failedReason : Option String
deriving Repr, DecidableEq

/-- The broker's job store, keyed by job id. -/
def JobStore := String → Option JobRecord

/-- `getJobStatus` of the queue module (lines 155-179): throws the
plain error `'Job not found'` for an unknown id, otherwise returns
state, numeric progress (0 when not a number), `returnvalue || null`
and `failedReason || undefined`. -/
def getJobStatus (store : JobStore) (jobId : String) :
    Except String (String × Int × Option ProcessingResult × Option String) :=
  match store jobId with
  | none => .error "Job not found"
  | some job => .ok (job.state, job.progress, job.returnvalue, job.failedReason)

/-- `GET /api/separation/status/:jobId` (routes/separation.ts lines
88-112).  The catch block turns the `'Job not found'` message into a
thrown `NotFoundError`; that rethrown error leaves the handler and is
answered by the application-level error middleware of `index.ts`
(lines 64-70), which responds with `getStatusCode`/`formatErrorResponse`
of the `AppError`.  Any other error is answered inside the catch block
with the same two helpers. -/
def statusRoute (store : JobStore) (jobId : String) : HttpResponse :=
  match getJobStatus store jobId with
  | .ok (state, progress, result, err) =>
    .statusJson 200 state progress result err
  | .error msg =>
    if msg = "Job not found" then
      let e := JsError.app (NotFoundError "Job not found")
      .errorJson (getStatusCode e) (formatErrorResponse e).1 (formatErrorResponse e).2
    else
      let e := JsError.plain msg
      .errorJson (getStatusCode e) (formatErrorResponse e).1 (formatErrorResponse e).2

/-- `GET /api/separation/download/:jobId` (routes/separation.ts lines
118-161).  Unknown id throws `NotFoundError`; a non-`completed` state
throws a `ValidationError` naming the state; a completed job whose
stored return value is missing, is not `success`, or has no output
descriptor throws `ValidationError('Job completed but no output file
available')`; only then is the file sent with download name
`'vocals.mp3'`.  All throws land in the handler's own catch block and
are answered via `getStatusCode`/`formatErrorResponse`. -/
def downloadRoute (store : JobStore) (jobId : String) : HttpResponse :=
  let answer : AppError → HttpResponse := fun a =>
    let e := JsError.app a
    .errorJson (getStatusCode e) (formatErrorResponse e).1 (formatErrorResponse e).2
  match store jobId with
  | none => answer (NotFoundError "Job not found")
  | some job =>
    if job.state ≠ "completed" then
      answer (ValidationError ("Job is not completed. Current status: " ++ job.state))
    else
      match job.returnvalue with
      | none => answer (ValidationError "Job completed but no output file available")
      | some result =>
        if result.status ≠ "success" then
          answer (ValidationError "Job completed but no output file available")
        else
          match result.output with
          | none => answer (ValidationError "Job completed but no output file available")
          | some out => .download out.path "vocals.mp3"

/-! ## File lifecycle (`utils/storage.ts`) -/

/-- Outcome of one `fs.unlink` call: resolves, or rejects with an error
whose `code` property is the given string (`'ENOENT'`, `'EACCES'`, ...). -/
inductive UnlinkOutcome where
  | ok
  | error (code : String)
deriving Repr, DecidableEq

/-- `cleanupFile` of `utils/storage.ts` (lines 23-32) as a function of
the underlying `fs.unlink` outcome: an `ENOENT` rejection is swallowed,
every other rejection is re-thrown, encoded by its `code`. -/
def cleanupFile (unlinkResult : UnlinkOutcome) : Except String Unit :=
  match unlinkResult with
  | .ok => .ok ()
  | .error code => if code = "ENOENT" then .ok () else .error code

/-- A toy filesystem (the set of existing paths) giving `fs.unlink` its
POSIX behaviour: removing an existing path succeeds, removing a missing
path rejects with `ENOENT`. -/
def fsUnlink (fs : List String) (p : String) : UnlinkOutcome × List String :=
  if p ∈ fs then (.ok, fs.erase p) else (.error "ENOENT", fs)

/-- `cleanupFile` run against the toy filesystem: the resulting
filesystem plus the call's outcome. -/
def cleanupFileFS (fs : List String) (p : String) : Except String (List String) :=
  let (u, fs') := fsUnlink fs p
  match cleanupFile u with
  | .ok _ => .ok fs'
  | .error c => .error c

/-! ## Progress reporting (worker + `processWithProgress`) -/

/-- The heartbeat update of `processWithProgress` (queue module lines
91-102): when the current progress is below 90, raise it to
`min (current + 10) 90`. -/
def heartbeatNext (p : Int) : Int := min (p + 10) 90

/-- The progress values written by `n` timer ticks starting from
progress `p`: a tick updates only while the current value is below 90. -/
def heartbeatUpdates : Nat → Int → List Int
  | 0, _ => []
  | n + 1, p =>
    if p < 90 then heartbeatNext p :: heartbeatUpdates n (heartbeatNext p)
    else heartbeatUpdates n p

/-- Every progress value written while the job is active in one attempt
with `n` heartbeat ticks: 10 at worker start, 20 before processing,
then the heartbeat values. -/
def activeUpdates (n : Nat) : List Int :=
  10 :: 20 :: heartbeatUpdates n 20

/-- How one attempt ends: the worker returns a result (job completes),
or it fails with retries left (job re-queued as delayed), or it fails
on the final attempt (job permanently failed). -/
inductive AttemptEnd where
  | success
  | failRetry
  | failFinal
deriving Repr, DecidableEq

/-- BullMQ state strings. -/
def stateOf : AttemptEnd → String
  | .success => "completed"
  | .failRetry => "delayed"
  | .failFinal => "failed"

/-- The `(state, progress)` pairs observable through `getJobStatus`
during and after one attempt with `n` heartbeat ticks.  While the
worker runs, each progress update is observable in state `active`; the
worker's terminal update (`updateProgress(100)` just before returning,
`updateProgress(-1)` just before re-throwing) is modelled atomically
with the state transition it immediately precedes. -/
def attemptObservations (n : Nat) (e : AttemptEnd) : List (String × Int) :=
  (activeUpdates n).map (fun p => ("active", p))
    ++ [(stateOf e, if e = .success then 100 else -1)]

/-! ## Theorems -/

/-- A concrete stdout parser used by witnesses: `"OK"` parses to a
success record, `"ERR"` to a tool-reported error record, everything
else fails to parse. -/
def parseOracle : String → Option ProcessingResult := fun s =>
  if s = "OK" then some { status := "success" }
  else if s = "ERR" then some { status := "error", message := some "boom" }
  else none

/-- C1: `processAudioFile` decides the outcome of the separation
subprocess exactly by the claimed rule: exit code 0 with parseable
output of status `success` resolves with the result; exit code 0 with
unparseable output rejects with the distinct malformed-output error
(never success); a non-zero (or null) exit code rejects carrying the
captured stderr stream; a spawn failure rejects with the distinct
spawn-failure error; and exit code 0 with well-formed output of status
`error` rejects surfacing the tool's own message. -/
theorem c1_subprocess_decision_rule (parse : String → Option ProcessingResult)
    (ft : FileType) :
    (∀ stdout stderr r, parse (strTrim stdout) = some r → r.status = "success" →
        processAudioFile parse (.closed (some 0) stdout stderr) ft
          = .ok { r with originalFileType := some ft })
    ∧ (∀ stdout stderr, parse (strTrim stdout) = none →
        processAudioFile parse (.closed (some 0) stdout stderr) ft
          = .error (.parseFailed "Failed to parse Python script output" stdout stderr))
    ∧ (∀ code stdout stderr, code ≠ some 0 →
        processAudioFile parse (.closed code stdout stderr) ft
          = .error (.execFailed "Python script execution failed" code stderr stdout))
    ∧ (∀ msg, processAudioFile parse (.failed msg) ft
          = .error (.spawnFailed "Failed to spawn Python process" msg))
    ∧ (∀ stdout stderr r, parse (strTrim stdout) = some r → r.status = "error" →
        processAudioFile parse (.closed (some 0) stdout stderr) ft
          = .error (.toolReported (r.message.getD "Processing failed")
              r.error_type stdout)) := by
  refine ⟨?_, ?_, ?_, ?_, ?_⟩
  · intro stdout stderr r hp hs
    simp [processAudioFile, hp, hs]
  · intro stdout stderr hp
    simp [processAudioFile, hp]
  · intro code stdout stderr hc
    simp [processAudioFile, hc]
  · intro msg
    simp [processAudioFile]
  · intro stdout stderr r hp hs
    simp [processAudioFile, hp, hs]

/-- Witness for C1: the decision rule evaluated on concrete subprocess
behaviours. -/
theorem c1_subprocess_decision_rule_witness :
    processAudioFile parseOracle (.closed (some 0) "OK" "") .audio
        = .ok { status := "success", originalFileType := some FileType.audio }
    ∧ processAudioFile parseOracle (.closed (some 0) "???" "e") .audio
        = .error (.parseFailed "Failed to parse Python script output" "???" "e")
    ∧ processAudioFile parseOracle (.closed (some 1) "OK" "e") .audio
        = .error (.execFailed "Python script execution failed" (some 1) "e" "OK")
    ∧ processAudioFile parseOracle (.failed "ENOENT") .audio
        = .error (.spawnFailed "Failed to spawn Python process" "ENOENT")
    ∧ processAudioFile parseOracle (.closed (some 0) "ERR" "") .audio
        = .error (.toolReported "boom" none "ERR") := by
  obtain ⟨h1, h2, h3, h4, h5⟩ :=
    c1_subprocess_decision_rule parseOracle FileType.audio
  exact ⟨h1 "OK" "" { status := "success" } (by decide) rfl,
    h2 "???" "e" (by decide),
    h3 (some 1) "OK" "e" (by decide), h4 "ENOENT",
    h5 "ERR" "" { status := "error", message := some "boom" } (by decide) rfl⟩

/-- C2: in `extractAudioFromVideo`, a clean FFmpeg exit (code 0) with a
missing output file fails with an extraction-failure error; a clean
exit with a zero-size output file fails with an extraction-failure
error and removes the empty file; and the call resolves successfully
exactly when FFmpeg was available, the subprocess exited 0, and the
output file exists with non-zero size. -/
theorem c2_extraction_output_verified (env : ExtractEnv) (vp op : String) :
    (∀ so se, env.ffmpegAvailable = true → env.run = .closed (some 0) so se →
        env.statSize = none →
        (extractAudioFromVideo env vp op).result
          = .error (.extractionMissing
              "Extracted audio file not found after extraction" se))
    ∧ (∀ so se, env.ffmpegAvailable = true → env.run = .closed (some 0) so se →
        env.statSize = some 0 →
        (extractAudioFromVideo env vp op).result
            = .error (.extractionEmpty "Extracted audio file is empty" se)
          ∧ (extractAudioFromVideo env vp op).removedEmptyOutput = true)
    ∧ (∀ r, (extractAudioFromVideo env vp op).result = .ok r ↔
        env.ffmpegAvailable = true ∧ (∃ so se, env.run = .closed (some 0) so se)
          ∧ (∃ n, 0 < n ∧ env.statSize = some n) ∧ r = { audioPath := op }) := by
  obtain ⟨avail, run, ss⟩ := env
  refine ⟨?_, ?_, ?_⟩
  · rintro so se rfl rfl rfl
    rfl
  · rintro so se rfl rfl rfl
    exact ⟨rfl, rfl⟩
  · intro r
    cases avail
    · simp [extractAudioFromVideo]
    · rcases run with m | ⟨c, so, se⟩
      · simp [extractAudioFromVideo]
      · by_cases hc : c = some 0
        · subst hc
          rcases ss with _ | (_ | n) <;>
            simp [extractAudioFromVideo, eq_comm]
        · simp [extractAudioFromVideo, hc]

/-- Witness for C2: the three behaviours on concrete environments
(missing output, empty output, non-empty output). -/
theorem c2_extraction_output_verified_witness :
    (extractAudioFromVideo ⟨true, .closed (some 0) "" "E", none⟩
        "in.mp4" "out.mp3").result
      = .error (.extractionMissing "Extracted audio file not found after extraction" "E")
    ∧ ((extractAudioFromVideo ⟨true, .closed (some 0) "" "E", some 0⟩
          "in.mp4" "out.mp3").result
        = .error (.extractionEmpty "Extracted audio file is empty" "E")
      ∧ (extractAudioFromVideo ⟨true, .closed (some 0) "" "E", some 0⟩
          "in.mp4" "out.mp3").removedEmptyOutput = true)
    ∧ (extractAudioFromVideo ⟨true, .closed (some 0) "" "E", some 5⟩
        "in.mp4" "out.mp3").result = .ok { audioPath := "out.mp3" } := by
  obtain ⟨h1, -, -⟩ := c2_extraction_output_verified
    ⟨true, .closed (some 0) "" "E", none⟩ "in.mp4" "out.mp3"
  obtain ⟨-, h2, -⟩ := c2_extraction_output_verified
    ⟨true, .closed (some 0) "" "E", some 0⟩ "in.mp4" "out.mp3"
  obtain ⟨-, -, h3⟩ := c2_extraction_output_verified
    ⟨true, .closed (some 0) "" "E", some 5⟩ "in.mp4" "out.mp3"
  exact ⟨h1 "" "E" rfl rfl rfl, h2 "" "E" rfl rfl rfl,
    (h3 _).mpr ⟨rfl, ⟨"", "E", rfl⟩, ⟨5, by decide, rfl⟩, rfl⟩⟩

/-- C3 counterexample: a job failing with the tool-unavailable error
(FFmpeg not installed) on its first attempt IS re-queued for another
attempt under the default three-attempt configuration, although the
spec policy marks that category non-retryable - so the claim that such
a job "is not re-queued for another attempt and fails immediately" is
false on the code. -/
theorem c3_counterexample_tool_unavailable_is_retried :
    specRetryable (.ffmpegNotFound
      "FFmpeg is not available. Video extraction cannot be performed.") = false
    ∧ jobAttemptFate JOB_ATTEMPTS 1 (.error (.ffmpegNotFound
        "FFmpeg is not available. Video extraction cannot be performed."))
      = .retried
    ∧ JobFate.retried ≠ JobFate.permanentlyFailed := by
  decide

/-- C3 amended: the retry decision is independent of the error
category - the worker re-throws every error unchanged and the queue
re-queues any failed job while attempts remain (default 3), moving it
to permanently failed only once attempts are exhausted; tool-unavailable
and malformed-output failures are retried exactly like processing
failures. -/
theorem c3_amended_retry_ignores_error_category (attempts attemptsMade : Nat)
    (e e' : ProcError) :
    jobAttemptFate attempts attemptsMade (.error e)
        = jobAttemptFate attempts attemptsMade (.error e')
    ∧ (attemptsMade < attempts →
        jobAttemptFate attempts attemptsMade (.error e) = .retried)
    ∧ (attempts ≤ attemptsMade →
        jobAttemptFate attempts attemptsMade (.error e) = .permanentlyFailed) := by
  refine ⟨rfl, fun h => ?_, fun h => ?_⟩
  · simp [jobAttemptFate, h]
  · simp [jobAttemptFate, Nat.not_lt.mpr h]

/-- Witness for the amended C3: tool-unavailable and malformed-output
failures share the fate of any failure - retried on attempt 1 of 3,
permanently failed on attempt 3 of 3. -/
theorem c3_amended_retry_ignores_error_category_witness :
    jobAttemptFate 3 1 (.error (.ffmpegNotFound "x"))
        = jobAttemptFate 3 1 (.error (.parseFailed "m" "o" "s"))
    ∧ jobAttemptFate 3 1 (.error (.ffmpegNotFound "x")) = .retried
    ∧ jobAttemptFate 3 3 (.error (.ffmpegNotFound "x")) = .permanentlyFailed := by
  obtain ⟨ha, hb, -⟩ :=
    c3_amended_retry_ignores_error_category 3 1 (.ffmpegNotFound "x")
      (.parseFailed "m" "o" "s")
  obtain ⟨-, -, hc⟩ :=
    c3_amended_retry_ignores_error_category 3 3 (.ffmpegNotFound "x")
      (.parseFailed "m" "o" "s")
  exact ⟨ha, hb (by decide), hc (by decide)⟩

/-- A concrete environment in which the whole pipeline succeeds on an
audio input. -/
def audioSuccessEnv : SepEnv :=
  { tempSuffix := "111-222",
    extractEnv := ⟨true, .closed (some 0) "" "", some 1⟩,
    parseJson := parseOracle,
    sepRun := .closed (some 0) "OK" "",
    mergeOk := true,
    videoStatSize := some 1 }

/-- C4 counterexample: a job that succeeds on an audio input deletes no
file at all - in particular the job's input file `uploads/song.mp3` is
deleted zero times, not exactly once, after the worker succeeds. -/
theorem c4_counterexample_input_not_deleted_on_success :
    (separateAudio audioSuccessEnv "uploads/song.mp3" "outputs/j1").result
        = .ok { status := "success", originalFileType := some FileType.audio }
    ∧ (separateAudio audioSuccessEnv "uploads/song.mp3" "outputs/j1").deletions
        = [] := by
  constructor <;> rfl

/-- C4 amended: the worker never deletes the job's input file on any
outcome - every path it removes is the temporary extracted-audio file
derived from the input (`getTempAudioPath`); the input file itself is
removed only by the upload route's error path, before any job exists. -/
theorem c4_amended_worker_deletes_only_temp_file (env : SepEnv)
    (inputPath outputDir : String)
    (h : inputPath ≠ getTempAudioPath env.tempSuffix inputPath) :
    (∀ p ∈ (separateAudio env inputPath outputDir).deletions,
        p = getTempAudioPath env.tempSuffix inputPath)
    ∧ inputPath ∉ (separateAudio env inputPath outputDir).deletions := by
  have hall : ∀ p ∈ (separateAudio env inputPath outputDir).deletions,
      p = getTempAudioPath env.tempSuffix inputPath := by
    intro p hp
    simp only [separateAudio] at hp
    repeat' split at hp
    all_goals simp_all
  exact ⟨hall, fun hmem => h (hall _ hmem)⟩

/-- Witness for the amended C4: a concrete video job whose extraction
fails; the only deletions are of the temp extracted-audio path, never
of the input `uploads/clip.mp4`. -/
theorem c4_amended_worker_deletes_only_temp_file_witness :
    "uploads/clip.mp4" ≠ getTempAudioPath audioSuccessEnv.tempSuffix "uploads/clip.mp4"
    ∧ "uploads/clip.mp4"
        ∉ (separateAudio audioSuccessEnv "uploads/clip.mp4" "outputs/j1").deletions := by
  have h : "uploads/clip.mp4"
      ≠ getTempAudioPath audioSuccessEnv.tempSuffix "uploads/clip.mp4" := by decide
  exact ⟨h, (c4_amended_worker_deletes_only_temp_file audioSuccessEnv
    "uploads/clip.mp4" "outputs/j1" h).2⟩

/-- A concrete stdout parser whose success record carries a primary
output descriptor, used by the C5 witness. -/
def parseOracleOut : String → Option ProcessingResult := fun s =>
  if s = "OK" then
    some { status := "success",
           output := some { path := "outputs/j1/vocals.mp3", size := 3, format := "mp3" } }
  else none

/-- C5: for a video job whose separation succeeds (with a primary
output descriptor and, as the Python tool emits, no `videoOutput`
field), the job never fails because of the merge: the result is a
success carrying the same primary audio artifact whatever the merge
does, and the secondary video artifact is present in the result exactly
when the merge step succeeds (the re-mux call and the stat of its
output file, which sizes the artifact descriptor). -/
theorem c5_merge_failure_nonfatal (env : SepEnv) (inputPath outputDir : String)
    (r : ProcessingResult) (out : OutputDesc)
    (hvideo : detectFileType inputPath = .video)
    (hex : (extractAudioFromVideo env.extractEnv inputPath
        (getTempAudioPath env.tempSuffix inputPath)).result.isOk = true)
    (hsep : processAudioFile env.parseJson env.sepRun .video = .ok r)
    (hout : r.output = some out)
    (hnovid : r.videoOutput = none) :
    ∃ r', (separateAudio env inputPath outputDir).result = .ok r'
      ∧ r'.output = some out
      ∧ (r'.videoOutput ≠ none ↔ env.mergeOk = true ∧ env.videoStatSize ≠ none)
      ∧ (env.mergeOk = false → r' = r) := by
  rcases hexr : (extractAudioFromVideo env.extractEnv inputPath
      (getTempAudioPath env.tempSuffix inputPath)).result with e | exv
  · rw [hexr] at hex
    simp [Except.isOk, Except.toBool] at hex
  · cases hm : env.mergeOk with
    | false =>
      refine ⟨r, ?_, hout, ?_, fun _ => rfl⟩
      · simp [separateAudio, hvideo, hexr, hsep, hout, mergeAudioIntoVideo, hm]
      · simp [hnovid, hm]
    | true =>
      cases hvs : env.videoStatSize with
      | none =>
        refine ⟨r, ?_, hout, ?_, by simp [hm]⟩
        · simp [separateAudio, hvideo, hexr, hsep, hout, mergeAudioIntoVideo, hm, hvs]
        · simp [hnovid, hm, hvs]
      | some n =>
        let vOut : OutputDesc :=
          { path := outputDir ++ "/vocals" ++ pathExtname inputPath,
            size := n,
            format := String.mk ((pathExtname inputPath).toList.drop 1) }
        refine ⟨{ r with videoOutput := some vOut }, ?_, hout, ?_, by simp [hm]⟩
        · simp [separateAudio, hvideo, hexr, hsep, hout, mergeAudioIntoVideo, hm, hvs, vOut]
        · simp [hm, hvs]

/-- The primary output descriptor used by the C5 witness. -/
def c5OutDesc : OutputDesc :=
  { path := "outputs/j1/vocals.mp3", size := 3, format := "mp3" }

/-- The separation result used by the C5 witness. -/
def c5SepResult : ProcessingResult :=
  { status := "success", output := some c5OutDesc,
    originalFileType := some FileType.video }

/-- A concrete environment for a video job whose merge fails. -/
def c5MergeFailEnv : SepEnv :=
  { tempSuffix := "111-222",
    extractEnv := ⟨true, .closed (some 0) "" "", some 5⟩,
    parseJson := parseOracleOut,
    sepRun := .closed (some 0) "OK" "",
    mergeOk := false,
    videoStatSize := some 7 }

/-- Witness for C5: a concrete video job whose merge fails still
succeeds with the primary audio artifact and no video artifact. -/
theorem c5_merge_failure_nonfatal_witness :
    ∃ r', (separateAudio c5MergeFailEnv "uploads/clip.mp4" "outputs/j1").result
        = .ok r'
      ∧ r'.output = some c5OutDesc
      ∧ (r'.videoOutput ≠ none ↔
          c5MergeFailEnv.mergeOk = true ∧ c5MergeFailEnv.videoStatSize ≠ none)
      ∧ (c5MergeFailEnv.mergeOk = false → r' = c5SepResult) := by
  exact c5_merge_failure_nonfatal c5MergeFailEnv "uploads/clip.mp4" "outputs/j1"
    c5SepResult c5OutDesc (by decide) (by decide) (by decide) rfl rfl

/-- Every heartbeat update stays at or below the 90% cap. -/
theorem heartbeatUpdates_le_90 (n : Nat) :
    ∀ p : Int, ∀ q ∈ heartbeatUpdates n p, q ≤ 90 := by
  induction n with
  | zero => intro p q hq; simp [heartbeatUpdates] at hq
  | succ n ih =>
    intro p q hq
    simp only [heartbeatUpdates] at hq
    split at hq
    · rcases List.mem_cons.mp hq with rfl | hq'
      · exact min_le_right _ _
      · exact ih _ q hq'
    · exact ih _ q hq

/-- Starting at or below the cap, the heartbeat sequence is
non-decreasing. -/
theorem heartbeatUpdates_chain (n : Nat) :
    ∀ p : Int, p ≤ 90 → List.Chain (· ≤ ·) p (heartbeatUpdates n p) := by
  induction n with
  | zero => intro p _; simp [heartbeatUpdates]
  | succ n ih =>
    intro p hp
    simp only [heartbeatUpdates]
    split
    · exact List.Chain.cons (le_min (by linarith) hp)
        (ih _ (min_le_right _ _))
    · exact ih _ hp

/-- C6: in any worker attempt, the progress values written while the
job is `active` (10, 20, then the capped heartbeat values) form a
non-decreasing sequence; across every observable `(state, progress)`
pair of the attempt, the progress equals exactly 100 iff the state is
`completed`; and every non-`active` observation is either `completed`
with progress 100 or carries the negative failure sentinel.  (The
worker's terminal `updateProgress` call immediately precedes the state
transition it announces and is modelled atomically with it.) -/
theorem c6_progress_monotone_and_100_iff_completed (n : Nat) (e : AttemptEnd) :
    List.Chain' (· ≤ ·) (activeUpdates n)
    ∧ (∀ sp ∈ attemptObservations n e, sp.2 = 100 ↔ sp.1 = "completed")
    ∧ (∀ sp ∈ attemptObservations n e, sp.1 ≠ "active" →
        (sp.1 = "completed" → sp.2 = 100) ∧ (sp.1 ≠ "completed" → sp.2 < 0)) := by
  have hbound : ∀ p ∈ activeUpdates n, p ≤ 90 := by
    intro p hp
    simp only [activeUpdates, List.mem_cons] at hp
    rcases hp with rfl | rfl | hmem
    · norm_num
    · norm_num
    · exact heartbeatUpdates_le_90 n 20 p hmem
  refine ⟨?_, ?_, ?_⟩
  · simp only [activeUpdates]
    exact List.Chain.cons (by norm_num) (heartbeatUpdates_chain n 20 (by norm_num))
  · intro sp hsp
    simp only [attemptObservations, List.mem_append, List.mem_map,
      List.mem_singleton] at hsp
    rcases hsp with ⟨p, hp, rfl⟩ | rfl
    · have hple := hbound p hp
      constructor
      · intro h100
        have hp100 : p = 100 := h100
        rw [hp100] at hple
        norm_num at hple
      · intro h
        have h' : "active" = "completed" := h
        exact absurd h' (by decide)
    · cases e <;> simp [stateOf]
  · intro sp hsp hact
    simp only [attemptObservations, List.mem_append, List.mem_map,
      List.mem_singleton] at hsp
    rcases hsp with ⟨p, hp, rfl⟩ | rfl
    · exact absurd rfl hact
    · cases e <;> simp [stateOf]

/-- Witness for C6: the observation list of a concrete failing attempt
contains the failure sentinel pair, which is neither 100 nor
`completed` and is negative. -/
theorem c6_progress_monotone_and_100_iff_completed_witness :
    (("failed", (-1 : Int)) ∈ attemptObservations 2 .failFinal)
    ∧ ((-1 : Int) = 100 ↔ "failed" = "completed")
    ∧ ("failed" ≠ "completed" → (-1 : Int) < 0) := by
  obtain ⟨-, h2, h3⟩ := c6_progress_monotone_and_100_iff_completed 2 .failFinal
  have hm : (("failed", (-1 : Int))) ∈ attemptObservations 2 .failFinal := by decide
  exact ⟨hm, h2 _ hm, fun _ => (h3 _ hm (by decide)).2 (by decide)⟩

/-- C7 counterexample: for the upload `track.mp3` declared with content
type `video/mp4`, the extension-first policy of the claim classifies it
as `audio` (`.mp3` is on the audio extension allow-list), but the code's
classification (`isVideoFile`, which consults the declared content type
first) yields `video` - so the claim's precedence order is false on the
code. -/
theorem c7_counterexample_mime_beats_extension :
    specMediaKind "video/mp4" "track.mp3" = .audio
    ∧ routeFileType "video/mp4" "track.mp3" = .video := by
  constructor <;> rfl

/-- C7 amended: the upload route's media-kind classification trusts the
declared content type first - a known video MIME type yields `video`
regardless of the extension; only otherwise does it fall back to the
video extension allow-list, defaulting to `audio` when neither marks
the file as video. -/
theorem c7_amended_mime_first_classification (mimetype filename : String) :
    (videoMimeTypes.contains mimetype = true →
        routeFileType mimetype filename = .video)
    ∧ (videoMimeTypes.contains mimetype = false →
        routeFileType mimetype filename
          = if videoExtensions.contains (strToLower (pathExtname filename))
            then .video else .audio) := by
  constructor
  · intro h
    have hmem : mimetype ∈ videoMimeTypes := by simpa using h
    simp [routeFileType, isVideoFile, hmem]
  · intro h
    simp only [routeFileType, isVideoFile, h]
    split <;> simp_all

/-- Witness for the amended C7: a video MIME type wins over an audio
extension; a non-video MIME type falls back to the extension; neither
matching defaults to audio. -/
theorem c7_amended_mime_first_classification_witness :
    routeFileType "video/mp4" "track.mp3" = .video
    ∧ routeFileType "audio/mpeg" "clip.mkv" = .video
    ∧ routeFileType "application/octet-stream" "file.xyz" = .audio := by
  obtain ⟨h1, -⟩ := c7_amended_mime_first_classification "video/mp4" "track.mp3"
  obtain ⟨-, h2⟩ := c7_amended_mime_first_classification "audio/mpeg" "clip.mkv"
  obtain ⟨-, h3⟩ :=
    c7_amended_mime_first_classification "application/octet-stream" "file.xyz"
  refine ⟨h1 (by decide), ?_, ?_⟩
  · rw [h2 (by decide)]
    decide
  · rw [h3 (by decide)]
    decide

/-- C8: a status request for a job id absent from the queue is answered
with the 404 not-found error response (`getJobStatus` throws
`'Job not found'`, the route converts it to a `NotFoundError`, and the
application error middleware maps that to status code 404). -/
theorem c8_unknown_job_is_404 (store : JobStore) (jobId : String)
    (h : store jobId = none) :
    statusRoute store jobId = .errorJson 404 "Job not found" "NOT_FOUND" := by
  simp [statusRoute, getJobStatus, h, NotFoundError, getStatusCode,
    formatErrorResponse]

/-- Witness for C8: the empty queue answers 404 for any id. -/
theorem c8_unknown_job_is_404_witness :
    statusRoute (fun _ => none) "nope" = .errorJson 404 "Job not found" "NOT_FOUND" :=
  c8_unknown_job_is_404 (fun _ => none) "nope" rfl

/-- C9: a download request for a `completed` job whose stored return
value is missing, has a status other than `success`, or lacks an output
descriptor is answered with the 400 validation error
`'Job completed but no output file available'`, and no file is ever
sent. -/
theorem c9_completed_without_output_is_validation_error (store : JobStore)
    (jobId : String) (job : JobRecord)
    (hj : store jobId = some job)
    (hc : job.state = "completed")
    (hbad : job.returnvalue = none
      ∨ (∃ r, job.returnvalue = some r ∧ r.status ≠ "success")
      ∨ (∃ r, job.returnvalue = some r ∧ r.output = none)) :
    downloadRoute store jobId
        = .errorJson 400 "Job completed but no output file available"
            "VALIDATION_ERROR"
    ∧ ∀ p d, downloadRoute store jobId ≠ .download p d := by
  have hmain : downloadRoute store jobId
      = .errorJson 400 "Job completed but no output file available"
          "VALIDATION_ERROR" := by
    rcases hbad with hrv | ⟨r, hrv, hs⟩ | ⟨r, hrv, ho⟩
    · simp [downloadRoute, hj, hc, hrv, ValidationError, getStatusCode,
        formatErrorResponse]
    · simp [downloadRoute, hj, hc, hrv, hs, ValidationError, getStatusCode,
        formatErrorResponse]
    · by_cases hs' : r.status = "success"
      · simp [downloadRoute, hj, hc, hrv, hs', ho, ValidationError, getStatusCode,
          formatErrorResponse]
      · simp [downloadRoute, hj, hc, hrv, hs', ValidationError, getStatusCode,
          formatErrorResponse]
  refine ⟨hmain, fun p d hcontra => ?_⟩
  rw [hmain] at hcontra
  exact HttpResponse.noConfusion hcontra

/-- Witness for C9: a queue holding one completed job with no stored
return value. -/
theorem c9_completed_without_output_is_validation_error_witness :
    downloadRoute (fun j => if j = "j1" then
        some { state := "completed", progress := 100,
               returnvalue := none, failedReason := none }
      else none) "j1"
      = .errorJson 400 "Job completed but no output file available"
          "VALIDATION_ERROR" := by
  exact (c9_completed_without_output_is_validation_error _ "j1"
    { state := "completed", progress := 100,
      returnvalue := none, failedReason := none }
    (by decide) rfl (Or.inl rfl)).1

/-- C10: `cleanupFile` swallows an `ENOENT` rejection from `fs.unlink`
(so cleaning a missing file resolves, and cleaning the same file twice
succeeds), while every other unlink error code is re-thrown unchanged. -/
theorem c10_cleanup_idempotent_enoent_tolerant (fs : List String)
    (p code : String) :
    (p ∉ fs → cleanupFileFS fs p = .ok fs)
    ∧ (∃ fs', cleanupFileFS fs p = .ok fs'
        ∧ ∃ fs'', cleanupFileFS fs' p = .ok fs'')
    ∧ cleanupFile (.error "ENOENT") = .ok ()
    ∧ (code ≠ "ENOENT" → cleanupFile (.error code) = .error code) := by
  have halways : ∀ l : List String, ∃ l', cleanupFileFS l p = .ok l' := by
    intro l
    by_cases h : p ∈ l
    · exact ⟨l.erase p, by simp [cleanupFileFS, fsUnlink, h, cleanupFile]⟩
    · exact ⟨l, by simp [cleanupFileFS, fsUnlink, h, cleanupFile]⟩
  refine ⟨?_, ?_, rfl, ?_⟩
  · intro h
    simp [cleanupFileFS, fsUnlink, h, cleanupFile]
  · obtain ⟨fs', h1⟩ := halways fs
    obtain ⟨fs'', h2⟩ := halways fs'
    exact ⟨fs', h1, fs'', h2⟩
  · intro h
    simp [cleanupFile, h]

/-- Witness for C10: deleting the missing file `b` from the filesystem
`[a]` resolves unchanged, double deletion succeeds, and an `EACCES`
unlink error is re-thrown. -/
theorem c10_cleanup_idempotent_enoent_tolerant_witness :
    cleanupFileFS ["a"] "b" = .ok ["a"]
    ∧ (∃ fs', cleanupFileFS ["a"] "b" = .ok fs'
        ∧ ∃ fs'', cleanupFileFS fs' "b" = .ok fs'')
    ∧ cleanupFile (.error "ENOENT") = .ok ()
    ∧ cleanupFile (.error "EACCES") = .error "EACCES" := by
  obtain ⟨h1, h2, h3, h4⟩ :=
    c10_cleanup_idempotent_enoent_tolerant ["a"] "b" "EACCES"
  exact ⟨h1 (by decide), h2, h3, h4 (by decide)⟩

end Neusik
